import Mathlib

/-!
Shallow embedding of src/github_full_mcp_server.py.

The server is a set of tool handlers wrapping a remote GitHub client.
Each handler is modelled as a pure function from the (optional) client
handle `g` plus the tool arguments to the outcome of the call.  The
remote platform is a black box: every remote accessor and mutation is a
field of the `Client` / `Repo` / `Org` structures whose value is an
arbitrary `Except PyExn` result, so theorems quantify over all remote
behaviours.

Python exceptions are modelled by `PyExn`.  A handler returning
`Except.ok r` models a normal return of the value `r`; returning
`Except.error e` models the exception `e` escaping the handler uncaught.
The two fixed result shapes (documented success record, or the
single-field error mapping) are the two constructors of `Res`.
-/

/-- Python exception values relevant to the source: `ValueError` (raised by
the repository resolver), `GithubException` (raised by the remote client
library) and `AttributeError` (raised by attribute access on `None`).
The carried string models the exception text. -/
inductive PyExn where
  | valueError (msg : String)
  | githubException (msg : String)
  | attributeError (msg : String)
deriving DecidableEq, Repr

/-- A tool result: either the documented success payload of the tool, or
the single-field error mapping with message `msg`. -/
inductive Res (α : Type) where
  | success (a : α)
  | errorPayload (msg : String)
deriving DecidableEq, Repr

/-- The `except (ValueError, GithubException) as e: return ⟨error: fmt e⟩`
clause shared by the repository-based handlers.  Any other exception
(in particular `AttributeError`) propagates uncaught. -/
def catchPy (fmt : String → String) (x : Except PyExn (Res α)) : Except PyExn (Res α) :=
  match x with
  | .error (.valueError m) => .ok (.errorPayload (fmt m))
  | .error (.githubException m) => .ok (.errorPayload (fmt m))
  | other => other

/-- The `except GithubException as e` clause of the handlers that talk to
the client directly (user profile, org members, gists): `ValueError` and
`AttributeError` both propagate uncaught. -/
def catchGh (fmt : String → String) (x : Except PyExn (Res α)) : Except PyExn (Res α) :=
  match x with
  | .error (.githubException m) => .ok (.errorPayload (fmt m))
  | other => other

/-- Shapes a successful remote response with `f`, letting exceptions pass. -/
def liftShape (f : α → β) : Except PyExn α → Except PyExn (Res β)
  | .error e => .error e
  | .ok a => .ok (.success (f a))

/-- Sequencing of two statements inside a `try` block: evaluate `x`;
an exception propagates, a value feeds the continuation. -/
def pyBind (x : Except PyExn α) (k : α → Except PyExn β) : Except PyExn β :=
  match x with
  | .error e => .error e
  | .ok a => k a

/-- Python truthiness of an optional string argument (`if x:`):
`None` and the empty string are falsy. -/
def pyTruthyStr : Option String → Bool
  | none => false
  | some s => s ≠ ""

/-- Python truthiness of an optional boolean (`if x:` on a value that can
be `True`, `False` or `None`): only `True` is truthy. -/
def pyTruthyOptBool : Option Bool → Bool
  | some true => true
  | _ => false

/-- A Python `datetime`; `iso` is what `isoformat()` renders. -/
structure PyDatetime where
  iso : String
deriving DecidableEq, Repr

/-- A platform user object (PyGithub `NamedUser`). -/
structure GhUser where
  login : String
  id : Int
  name : Option String
  email : Option String
  company : Option String
  location : Option String
  blog : Option String
  public_repos : Int
  followers : Int
  following : Int
  created_at : PyDatetime
  html_url : String
deriving DecidableEq, Repr

/-- A platform issue object. -/
structure Issue where
  title : String
  number : Int
  html_url : String
  state : String
  created_at : PyDatetime
  assignees : List GhUser
deriving DecidableEq, Repr

/-- The keyword filters handed to `repo.get_issues(**filters)`:
always a `state`, plus an `assignee` entry when one was resolved. -/
structure IssueFilters where
  state : String
  assignee : Option GhUser
deriving DecidableEq, Repr

/-- A platform branch object (`protected` is a Lean keyword, hence
`protectedFlag` for the source field `protected`). -/
structure Branch where
  name : String
  protectedFlag : Bool
deriving DecidableEq, Repr

/-- A platform content file object as used by the content tools. -/
structure ContentFile where
  name : String
  path : String
  type : String
  html_url : String
  decoded_content : String
  encoding : String
  sha : String
deriving DecidableEq, Repr

/-- The value of `repo.get_contents(path, ref)`: a list when the path is
a directory, a single content file otherwise. -/
inductive ContentsRes where
  | listing (entries : List ContentFile)
  | single (f : ContentFile)
deriving DecidableEq, Repr

/-- The confirmation object returned by `pr.merge(...)`. -/
structure MergeRes where
  message : String
  merged : Bool
  sha : String
deriving DecidableEq, Repr

/-- A platform pull request object; `mergeable` is `True`, `False` or
`None` (not yet computed).  `merge` is the remote merge mutation, taking
`commit_message`, `sha` and `merge_method`. -/
structure PullReq where
  mergeable : Option Bool
  html_url : String
  merge : Option String → Option String → String → Except PyExn MergeRes

/-- The issue object returned by `repo.create_issue(...)`. -/
structure CreatedIssue where
  title : String
  number : Int
  html_url : String
deriving DecidableEq, Repr

/-- The response of `repo.create_file` / `repo.update_file`:
`response[commit].sha`, `response[content].path`, `response[content].html_url`. -/
structure FileOpRes where
  commit_sha : String
  content_path : String
  content_html_url : String
deriving DecidableEq, Repr

/-- A platform release object. -/
structure Release where
  tag_name : String
  title : String
  html_url : String
  created_at : PyDatetime
  published_at : Option PyDatetime
  prerelease : Bool
  draft : Bool
deriving DecidableEq, Repr

/-- A platform workflow object. -/
structure Workflow where
  name : String
  id : Int
  state : String
  path : String
  html_url : String
deriving DecidableEq, Repr

/-- A platform label object. -/
structure Label where
  name : String
  color : String
  description : Option String
deriving DecidableEq, Repr

/-- An organization member object. -/
structure Member where
  login : String
  id : Int
  html_url : String
deriving DecidableEq, Repr

/-- The `InputFileContent` wrapper around raw gist file text. -/
structure InputFileContent where
  content : String
deriving DecidableEq, Repr

/-- The gist object returned by `g.create_gist(...)`; `files` keeps the
insertion order of the Python dict. -/
structure Gist where
  id : String
  html_url : String
  description : Option String
  public : Bool
  files : List (String × String)
deriving DecidableEq, Repr

/-- A repository handle: every remote accessor and mutation the embedded
tools use, each with an arbitrary remote outcome. -/
structure Repo where
  getIssues : IssueFilters → Except PyExn (List Issue)
  getBranches : Except PyExn (List Branch)
  getPull : Int → Except PyExn PullReq
  getContents : String → Option String → Except PyExn ContentsRes
  getReleases : Except PyExn (List Release)
  getWorkflows : Except PyExn (List Workflow)
  getLabels : Except PyExn (List Label)
  createIssue : String → String → List GhUser → List String → Except PyExn CreatedIssue
  updateFile : String → String → String → String → Option String → Except PyExn FileOpRes
  createFile : String → String → String → Option String → Except PyExn FileOpRes

/-- An organization handle. -/
structure Org where
  getMembers : Except PyExn (List Member)

/-- The authenticated remote client handle `g`.  The module-level variable
is modelled as `Option Client`: `none` when `GITHUB_TOKEN` is absent or
invalid, in which case the Python variable `g` is `None`. -/
structure Client where
  getRepo : String → Except PyExn Repo
  getUser : String → Except PyExn GhUser
  getOrganization : String → Except PyExn Org
  createGist : Bool → List (String × InputFileContent) → Option String → Except PyExn Gist

/-- The message of the `ValueError` raised by `_get_repo_safe` when the
client is unconfigured. -/
def tokenNotConfiguredMsg : String :=
  "GitHub token is not configured or invalid. Please set GITHUB_TOKEN environment variable correctly."

/-- `_get_repo_safe`: raises `ValueError` when `g` is `None`, otherwise
looks the repository up, re-raising a `GithubException` as a `ValueError`
with the diagnostic payload. -/
def _get_repo_safe (g : Option Client) (repo_full_name : String) : Except PyExn Repo :=
  match g with
  | none => .error (.valueError tokenNotConfiguredMsg)
  | some c =>
    match c.getRepo repo_full_name with
    | .error (.githubException d) =>
      .error (.valueError ("Could not find repository \x27" ++ repo_full_name ++ "\x27. Error: " ++ d))
    | other => other

/-- The `for i, x in enumerate(xs): if i >= limit: break; ...append...`
loop shared by the list tools: `step` yields the records appended for one
enumerated element (one record, or none when a filter rejects it). -/
def enumBreak (limit : Int) (step : α → List β) : Int → List α → List β
  | _, [] => []
  | i, x :: xs => if limit ≤ i then [] else step x ++ enumBreak limit step (i + 1) xs

/-- The per-issue record of `list_issues`: exactly the six documented
fields. -/
structure IssueRec where
  title : String
  number : Int
  url : String
  state : String
  created_at : String
  assignees : List String
deriving DecidableEq, Repr

/-- Shapes one issue, including the truthiness test on `issue.assignees`. -/
def shapeIssue (issue : Issue) : IssueRec :=
  { title := issue.title
    number := issue.number
    url := issue.html_url
    state := issue.state
    created_at := issue.created_at.iso
    assignees := if issue.assignees ≠ [] then issue.assignees.map (fun a => a.login) else [] }

/-- The message of the `AttributeError` from calling `get_user` on `None`. -/
def noneGetUserMsg : String := "NoneType object has no attribute get_user"

/-- `list_issues`: resolve the repository, optionally resolve the assignee
and pass it in the server-side filters, enumerate the first `limit`
issues, shape each. -/
def list_issues (g : Option Client) (repo_full_name : String) (state : String)
    (limit : Int) (assignee_username : Option String) : Except PyExn (Res (List IssueRec)) :=
  catchPy id (
    pyBind (_get_repo_safe g repo_full_name) (fun repo =>
    pyBind (if pyTruthyStr assignee_username then
              match g with
              | none => Except.error (PyExn.attributeError noneGetUserMsg)
              | some c =>
                pyBind (c.getUser (assignee_username.getD "")) (fun u =>
                  .ok (IssueFilters.mk state (some u)))
            else .ok (IssueFilters.mk state none)) (fun filters =>
    pyBind (repo.getIssues filters) (fun issues =>
      .ok (.success (enumBreak limit (fun issue => [shapeIssue issue]) 0 issues))))))

/-- The per-branch record of `list_branches`. -/
structure BranchRec where
  name : String
  protectedFlag : Bool
deriving DecidableEq, Repr

/-- Shapes one branch. -/
def shapeBranch (b : Branch) : BranchRec :=
  { name := b.name, protectedFlag := b.protectedFlag }

/-- `list_branches`: enumerate the first `limit` branches, keeping a
branch when `not protected_only or branch.protected` holds. -/
def list_branches (g : Option Client) (repo_full_name : String)
    (protected_only : Bool) (limit : Int) : Except PyExn (Res (List BranchRec)) :=
  catchPy id (
    pyBind (_get_repo_safe g repo_full_name) (fun repo =>
    pyBind repo.getBranches (fun branches =>
      .ok (.success (enumBreak limit
        (fun b => if !protected_only || b.protectedFlag then [shapeBranch b] else []) 0 branches)))))

/-- The success record of `get_file_content_from_repo`. -/
structure FileContentRec where
  content : String
  encoding : String
  sha : String
deriving DecidableEq, Repr

/-- The error-message wrapper of `get_file_content_from_repo`. -/
def fileContentFmt (m : String) : String :=
  "Could not retrieve file content. Check repo, path, or ref. Error: " ++ m

/-- `get_file_content_from_repo`: a directory result short-circuits to an
error payload inside the `try` block; a single file is decoded and shaped. -/
def get_file_content_from_repo (g : Option Client) (repo_full_name : String)
    (path : String) (ref : Option String) : Except PyExn (Res FileContentRec) :=
  catchPy fileContentFmt (
    pyBind (_get_repo_safe g repo_full_name) (fun repo =>
    pyBind (repo.getContents path ref) (fun contents =>
      match contents with
      | .listing _ =>
        .ok (.errorPayload ("Path \x27" ++ path ++ "\x27 is a directory, not a file."))
      | .single contents =>
        .ok (.success { content := contents.decoded_content
                        encoding := contents.encoding
                        sha := contents.sha }))))

deriving instance DecidableEq for Except

/-- Which file mutation `create_or_update_file` invoked on the capability. -/
inductive FileMutation where
  | updateFile
  | createFile
deriving DecidableEq, Repr

/-- The success record of `create_or_update_file`. -/
structure FileOpRec where
  message : String
  commit_sha : String
  file_path : String
  file_url : String
deriving DecidableEq, Repr

/-- Shapes the create/update-file response. -/
def shapeFileOp (r : FileOpRes) : FileOpRec :=
  { message := "File operation successful!"
    commit_sha := r.commit_sha
    file_path := r.content_path
    file_url := r.content_html_url }

/-- The error-message wrapper of `create_or_update_file`. -/
def fileOpFmt (m : String) : String :=
  "Could not create/update file. Check permissions, path, or SHA. Error: " ++ m

/-- The outcome of `create_or_update_file`: the returned value plus which
capability mutation (if any) the call invoked.  The source performs the
mutation as a side effect; `invoked` makes that effect observable. -/
structure FileOpOutcome where
  result : Except PyExn (Res FileOpRec)
  invoked : Option FileMutation
deriving DecidableEq, Repr

/-- `create_or_update_file`: `if sha:` (Python truthiness) selects the
update mutation, otherwise the create mutation; the remote response is
shaped unchanged and the caller-supplied `sha` is forwarded verbatim. -/
def create_or_update_file (g : Option Client) (repo_full_name : String)
    (path : String) (message : String) (content : String)
    (branch : Option String) (sha : Option String) : FileOpOutcome :=
  match _get_repo_safe g repo_full_name with
  | .error e => { result := catchPy fileOpFmt (.error e), invoked := none }
  | .ok repo =>
    match sha with
    | some s =>
      if s ≠ "" then
        { result := catchPy fileOpFmt (liftShape shapeFileOp (repo.updateFile path message content s branch))
          invoked := some .updateFile }
      else
        { result := catchPy fileOpFmt (liftShape shapeFileOp (repo.createFile path message content branch))
          invoked := some .createFile }
    | none =>
      { result := catchPy fileOpFmt (liftShape shapeFileOp (repo.createFile path message content branch))
        invoked := some .createFile }

/-- The success record of `merge_pull_request`. -/
structure MergeRec where
  message : String
  merged : Bool
  sha : String
  url : String
deriving DecidableEq, Repr

/-- The outcome of `merge_pull_request`: the returned value plus whether
the remote merge mutation was invoked. -/
structure MergeOutcome where
  result : Except PyExn (Res MergeRec)
  mergeInvoked : Bool
deriving DecidableEq, Repr

/-- `merge_pull_request`: fetch the pull request, then `if not
pr.mergeable:` (true for both `False` and `None`) short-circuit to the
fixed error payload without calling the merge mutation. -/
def merge_pull_request (g : Option Client) (repo_full_name : String) (pr_number : Int)
    (commit_message : Option String) (sha : Option String) (merge_method : String) : MergeOutcome :=
  match _get_repo_safe g repo_full_name with
  | .error e => { result := catchPy id (.error e), mergeInvoked := false }
  | .ok repo =>
    match repo.getPull pr_number with
    | .error e => { result := catchPy id (.error e), mergeInvoked := false }
    | .ok pr =>
      if pyTruthyOptBool pr.mergeable then
        match pr.merge commit_message sha merge_method with
        | .error e => { result := catchPy id (.error e), mergeInvoked := true }
        | .ok mr =>
          { result := .ok (.success { message := mr.message, merged := mr.merged
                                      sha := mr.sha, url := pr.html_url })
            mergeInvoked := true }
      else
        { result := .ok (.errorPayload
            ("Pull request #" ++ toString pr_number ++ " is not mergeable."))
          mergeInvoked := false }

/-- The success record of `create_github_issue`. -/
structure CreatedIssueRec where
  message : String
  title : String
  number : Int
  url : String
deriving DecidableEq, Repr

/-- The outcome of `create_github_issue`: the returned value plus whether
the remote issue-creation mutation was invoked. -/
structure CreateIssueOutcome where
  result : Except PyExn (Res CreatedIssueRec)
  createInvoked : Bool
deriving DecidableEq, Repr

/-- `create_github_issue`: resolve the repository, then build
`assignees = [g.get_user(assignee_username)] if assignee_username else []`
(Python truthiness, resolution failures raise before any mutation), then
invoke the issue-creation mutation. -/
def create_github_issue (g : Option Client) (repo_full_name : String)
    (title : String) (body : String) (assignee_username : Option String)
    (labels : Option (List String)) : CreateIssueOutcome :=
  match _get_repo_safe g repo_full_name with
  | .error e => { result := catchPy id (.error e), createInvoked := false }
  | .ok repo =>
    match (if pyTruthyStr assignee_username then
             match g with
             | none => Except.error (PyExn.attributeError noneGetUserMsg)
             | some c =>
               match c.getUser (assignee_username.getD "") with
               | .error e => .error e
               | .ok u => .ok [u]
           else .ok []) with
    | .error e => { result := catchPy id (.error e), createInvoked := false }
    | .ok assignees =>
      match repo.createIssue title body assignees (labels.getD []) with
      | .error e => { result := catchPy id (.error e), createInvoked := true }
      | .ok issue =>
        { result := .ok (.success { message := "Issue created successfully!"
                                    title := issue.title
                                    number := issue.number
                                    url := issue.html_url })
          createInvoked := true }

/-- The per-entry record of `list_repository_contents`. -/
structure ContentRec where
  name : String
  path : String
  type : String
  url : String
deriving DecidableEq, Repr

/-- Shapes one content entry. -/
def shapeContent (c : ContentFile) : ContentRec :=
  { name := c.name, path := c.path, type := c.type, url := c.html_url }

/-- The error-message wrapper of `list_repository_contents`. -/
def listContentsFmt (m : String) : String :=
  "Could not list repository contents. Check repo, path, or ref. Error: " ++ m

/-- `list_repository_contents`: a directory yields one record per entry,
a single file yields a one-element list of its record. -/
def list_repository_contents (g : Option Client) (repo_full_name : String)
    (path : String) (ref : Option String) : Except PyExn (Res (List ContentRec)) :=
  catchPy listContentsFmt (
    pyBind (_get_repo_safe g repo_full_name) (fun repo =>
    pyBind (repo.getContents path ref) (fun contents =>
      match contents with
      | .listing entries => .ok (.success (entries.map shapeContent))
      | .single contents => .ok (.success [shapeContent contents]))))

/-- The per-release record of `list_releases`. -/
structure ReleaseRec where
  tag_name : String
  name : String
  url : String
  created_at : String
  published_at : Option String
  prerelease : Bool
  draft : Bool
deriving DecidableEq, Repr

/-- Shapes one release, including the `published_at` null check. -/
def shapeRelease (r : Release) : ReleaseRec :=
  { tag_name := r.tag_name
    name := r.title
    url := r.html_url
    created_at := r.created_at.iso
    published_at := match r.published_at with
      | some d => some d.iso
      | none => none
    prerelease := r.prerelease
    draft := r.draft }

/-- `list_releases`: enumerate the first `limit` releases. -/
def list_releases (g : Option Client) (repo_full_name : String)
    (limit : Int) : Except PyExn (Res (List ReleaseRec)) :=
  catchPy id (
    pyBind (_get_repo_safe g repo_full_name) (fun repo =>
    pyBind repo.getReleases (fun releases =>
      .ok (.success (enumBreak limit (fun r => [shapeRelease r]) 0 releases)))))

/-- The per-workflow record of `list_workflows`. -/
structure WorkflowRec where
  name : String
  id : Int
  state : String
  path : String
  url : String
deriving DecidableEq, Repr

/-- Shapes one workflow. -/
def shapeWorkflow (w : Workflow) : WorkflowRec :=
  { name := w.name, id := w.id, state := w.state, path := w.path, url := w.html_url }

/-- `list_workflows`: enumerate the first `limit` workflows. -/
def list_workflows (g : Option Client) (repo_full_name : String)
    (limit : Int) : Except PyExn (Res (List WorkflowRec)) :=
  catchPy id (
    pyBind (_get_repo_safe g repo_full_name) (fun repo =>
    pyBind repo.getWorkflows (fun workflows =>
      .ok (.success (enumBreak limit (fun w => [shapeWorkflow w]) 0 workflows)))))

/-- The per-label record of `list_labels`. -/
structure LabelRec where
  name : String
  color : String
  description : Option String
deriving DecidableEq, Repr

/-- Shapes one label. -/
def shapeLabel (l : Label) : LabelRec :=
  { name := l.name, color := l.color, description := l.description }

/-- `list_labels`: enumerate the first `limit` labels. -/
def list_labels (g : Option Client) (repo_full_name : String)
    (limit : Int) : Except PyExn (Res (List LabelRec)) :=
  catchPy id (
    pyBind (_get_repo_safe g repo_full_name) (fun repo =>
    pyBind repo.getLabels (fun labels =>
      .ok (.success (enumBreak limit (fun l => [shapeLabel l]) 0 labels)))))

/-- The success record of `get_user_profile`: the twelve documented
profile fields. -/
structure UserRec where
  login : String
  id : Int
  name : Option String
  email : Option String
  company : Option String
  location : Option String
  blog : Option String
  public_repos : Int
  followers : Int
  following : Int
  created_at : String
  url : String
deriving DecidableEq, Repr

/-- Shapes one user profile. -/
def shapeUser (u : GhUser) : UserRec :=
  { login := u.login, id := u.id, name := u.name, email := u.email
    company := u.company, location := u.location, blog := u.blog
    public_repos := u.public_repos, followers := u.followers, following := u.following
    created_at := u.created_at.iso, url := u.html_url }

/-- `get_user_profile`: calls `g.get_user(username)` directly on the
module-level handle and catches only `GithubException`; when `g` is
`None` the attribute access raises `AttributeError`, which escapes. -/
def get_user_profile (g : Option Client) (username : String) : Except PyExn (Res UserRec) :=
  catchGh (fun m => "Could not retrieve user profile for \x27" ++ username ++ "\x27. Error: " ++ m) (
    match g with
    | none => .error (.attributeError noneGetUserMsg)
    | some c =>
      pyBind (c.getUser username) (fun u => .ok (.success (shapeUser u))))

/-- The per-member record of `list_org_members`. -/
structure MemberRec where
  login : String
  id : Int
  url : String
deriving DecidableEq, Repr

/-- Shapes one organization member. -/
def shapeMember (m : Member) : MemberRec :=
  { login := m.login, id := m.id, url := m.html_url }

/-- The message of the `AttributeError` from calling `get_organization`
on `None`. -/
def noneGetOrgMsg : String := "NoneType object has no attribute get_organization"

/-- `list_org_members`: calls `g.get_organization` directly (uncaught
`AttributeError` when the handle is `None`), then enumerates the first
`limit` members, catching only `GithubException`. -/
def list_org_members (g : Option Client) (org_name : String)
    (limit : Int) : Except PyExn (Res (List MemberRec)) :=
  catchGh (fun m => "Could not list organization members for \x27" ++ org_name ++ "\x27. Error: " ++ m) (
    match g with
    | none => .error (.attributeError noneGetOrgMsg)
    | some c =>
      pyBind (c.getOrganization org_name) (fun org =>
      pyBind org.getMembers (fun members =>
        .ok (.success (enumBreak limit (fun m => [shapeMember m]) 0 members)))))

/-- The success record of `create_gist`. -/
structure GistRec where
  message : String
  id : String
  url : String
  description : Option String
  public : Bool
  files : List String
deriving DecidableEq, Repr

/-- The message of the `AttributeError` from calling `create_gist` on
`None`. -/
def noneCreateGistMsg : String := "NoneType object has no attribute create_gist"

/-- `create_gist`: wraps each file text in `InputFileContent`, then calls
`g.create_gist` directly (uncaught `AttributeError` when the handle is
`None`), catching only `GithubException`. -/
def create_gist (g : Option Client) (public : Bool)
    (files : List (String × String)) (description : Option String) : Except PyExn (Res GistRec) :=
  catchGh (fun m => "An unexpected error occurred while creating gist: " ++ m) (
    let file_objects := files.map (fun nc => (nc.1, InputFileContent.mk nc.2))
    match g with
    | none => .error (.attributeError noneCreateGistMsg)
    | some c =>
      pyBind (c.createGist public file_objects description) (fun gist =>
        .ok (.success { message := "Gist created successfully!"
                        id := gist.id
                        url := gist.html_url
                        description := gist.description
                        public := gist.public
                        files := gist.files.map Prod.fst })))

/-! ### Basic lemmas about the embedding combinators -/

theorem pyBind_ok (x : Except PyExn α) (k : α → Except PyExn β) (a : α)
    (h : x = .ok a) : pyBind x k = k a := by
  rw [h]; rfl

theorem pyBind_ok_inv (x : Except PyExn α) (k : α → Except PyExn β) (b : β)
    (h : pyBind x k = .ok b) : ∃ a, x = .ok a ∧ k a = .ok b := by
  unfold pyBind at h
  split at h
  · exact absurd h (by simp)
  · exact ⟨_, rfl, h⟩

theorem catchPy_ok_success (fmt : String → String) (x : Except PyExn (Res α)) (l : α)
    (h : catchPy fmt x = .ok (.success l)) : x = .ok (.success l) := by
  unfold catchPy at h
  split at h <;> simp_all

theorem catchPy_of_ok (fmt : String → String) (x : Except PyExn (Res α)) (r : Res α)
    (h : x = .ok r) : catchPy fmt x = .ok r := by
  rw [show catchPy fmt x = catchPy fmt (.ok r) by rw [h]]
  rfl

/-! ### Lemmas about the first-N enumeration loop -/

theorem enumBreak_singleton (limit : Int) (f : α → β) :
    ∀ (i : Int) (xs : List α),
      enumBreak limit (fun a => [f a]) i xs = ((xs.take (limit - i).toNat).map f) := by
  intro i xs
  induction xs generalizing i with
  | nil => simp [enumBreak]
  | cons x xs ih =>
    by_cases h : limit ≤ i
    · have h0 : (limit - i).toNat = 0 := by omega
      simp [enumBreak, h, h0]
    · have h1 : (limit - i).toNat = (limit - (i + 1)).toNat + 1 := by omega
      simp [enumBreak, h, h1, List.take_succ_cons, ih]

theorem enumBreak_filter (limit : Int) (p : α → Bool) (f : α → β) :
    ∀ (i : Int) (xs : List α),
      enumBreak limit (fun a => if p a then [f a] else []) i xs
        = (((xs.take (limit - i).toNat).filter p).map f) := by
  intro i xs
  induction xs generalizing i with
  | nil => simp [enumBreak]
  | cons x xs ih =>
    by_cases h : limit ≤ i
    · have h0 : (limit - i).toNat = 0 := by omega
      simp [enumBreak, h, h0]
    · have h1 : (limit - i).toNat = (limit - (i + 1)).toNat + 1 := by omega
      by_cases hp : p x
      · simp [enumBreak, h, h1, List.take_succ_cons, List.filter_cons, hp, ih]
      · simp [enumBreak, h, h1, List.take_succ_cons, List.filter_cons, hp, ih]

theorem enumBreak_length_le (limit : Int) (step : α → List β)
    (hstep : ∀ a, (step a).length ≤ 1) :
    ∀ (i : Int) (xs : List α), ((enumBreak limit step i xs).length : Int) ≤ limit - i ∨
      enumBreak limit step i xs = [] := by
  intro i xs
  induction xs generalizing i with
  | nil => right; rfl
  | cons x xs ih =>
    by_cases h : limit ≤ i
    · right; simp [enumBreak, h]
    · left
      have hx := hstep x
      rcases ih (i + 1) with hle | hnil
      · simp only [enumBreak, if_neg h, List.length_append]
        push_cast
        omega
      · simp only [enumBreak, if_neg h, hnil, List.append_nil]
        omega

/-! ### Concrete remote worlds used by witnesses and counterexamples -/

/-- A pull request the platform reports as mergeable. -/
def prMergeableYes : PullReq :=
  { mergeable := some true
    html_url := "https://example.com/pr/1"
    merge := fun _ _ _ => .ok { message := "Pull Request successfully merged", merged := true, sha := "abc" } }

/-- A pull request the platform reports as not mergeable. -/
def prMergeableNo : PullReq :=
  { mergeable := some false
    html_url := "https://example.com/pr/2"
    merge := fun _ _ _ => .ok { message := "m", merged := true, sha := "s" } }

/-- A pull request whose mergeability is not yet computed (`None`). -/
def prMergeableUnknown : PullReq :=
  { mergeable := none
    html_url := "https://example.com/pr/3"
    merge := fun _ _ _ => .ok { message := "m", merged := true, sha := "s" } }

/-- A sample content file. -/
def fileReadme : ContentFile :=
  { name := "README.md", path := "README.md", type := "file"
    html_url := "https://example.com/README.md"
    decoded_content := "hello", encoding := "base64", sha := "abc123" }

/-- A second sample content file, for directory listings. -/
def fileSrc : ContentFile :=
  { name := "main.py", path := "src/main.py", type := "file"
    html_url := "https://example.com/main.py"
    decoded_content := "pass", encoding := "base64", sha := "def456" }

/-- A sample issue with the given number. -/
def mkIssue (n : Int) : Issue :=
  { title := "Bug", number := n, html_url := "https://example.com/i"
    state := "open", created_at := { iso := "2024-01-01T00:00:00" }, assignees := [] }

/-- The sample issue enumeration: three open issues. -/
def sampleIssues : List Issue := [mkIssue 1, mkIssue 2, mkIssue 3]

/-- The sample branch enumeration: an unprotected branch first, then a
protected one. -/
def sampleBranches : List Branch :=
  [{ name := "dev", protectedFlag := false }, { name := "main", protectedFlag := true }]

/-- A sample release. -/
def sampleRelease : Release :=
  { tag_name := "v1.0", title := "First", html_url := "https://example.com/r"
    created_at := { iso := "2024-01-02T00:00:00" }, published_at := none
    prerelease := false, draft := false }

/-- A sample workflow. -/
def sampleWorkflow : Workflow :=
  { name := "CI", id := 11, state := "active", path := ".github/workflows/ci.yml"
    html_url := "https://example.com/w" }

/-- A sample label. -/
def sampleLabel : Label :=
  { name := "bug", color := "f29513", description := none }

/-- A sample organization member. -/
def sampleMember : Member :=
  { login := "alice", id := 5, html_url := "https://example.com/alice" }

/-- A sample user. -/
def sampleUser : GhUser :=
  { login := "octocat", id := 1, name := none, email := none, company := none
    location := none, blog := none, public_repos := 2, followers := 3, following := 4
    created_at := { iso := "2011-01-25T18:44:36" }, html_url := "https://github.com/octocat" }

/-- A sample create/update-file response. -/
def sampleFileOp : FileOpRes :=
  { commit_sha := "c0ffee", content_path := "docs/new.md"
    content_html_url := "https://example.com/docs/new.md" }

/-- The sample repository handle: every accessor succeeds with the sample
data above; `getPull` distinguishes the three mergeability cases by
number; `getContents` returns a directory listing for the empty path and
a single file otherwise. -/
def sampleRepo : Repo :=
  { getIssues := fun _ => .ok sampleIssues
    getBranches := .ok sampleBranches
    getPull := fun k => if k = 2 then .ok prMergeableNo
                        else if k = 3 then .ok prMergeableUnknown
                        else .ok prMergeableYes
    getContents := fun p _ => if p = "" then .ok (.listing [fileReadme, fileSrc])
                              else .ok (.single fileReadme)
    getReleases := .ok [sampleRelease]
    getWorkflows := .ok [sampleWorkflow]
    getLabels := .ok [sampleLabel]
    createIssue := fun t _ _ _ => .ok { title := t, number := 7, html_url := "https://example.com/i/7" }
    updateFile := fun _ _ _ _ _ => .ok sampleFileOp
    createFile := fun _ _ _ _ => .ok sampleFileOp }

/-- The sample organization handle. -/
def sampleOrg : Org := { getMembers := .ok [sampleMember] }

/-- The sample client: repository and organization lookups succeed; user
lookup fails with a platform exception exactly for the empty username. -/
def sampleClient : Client :=
  { getRepo := fun _ => .ok sampleRepo
    getUser := fun u => if u = "" then .error (.githubException "404 user not found")
                        else .ok sampleUser
    getOrganization := fun _ => .ok sampleOrg
    createGist := fun pub fs d =>
      .ok { id := "g1", html_url := "https://example.com/gist/g1", description := d
            public := pub, files := fs.map (fun nc => (nc.1, nc.2.content)) } }

theorem sampleClient_repo (n : String) : _get_repo_safe (some sampleClient) n = .ok sampleRepo := rfl

/-! ### Claim C4 -/

/-- Claim C4: for every pull request whose platform-reported mergeable
flag is false, `merge_pull_request` returns the error payload whose
message is exactly "Pull request #n is not mergeable." and does not
invoke the merge mutation on the remote capability.  Confirmed. -/
theorem claim_C4_not_mergeable_short_circuit
    (g : Option Client) (repo_full_name : String) (pr_number : Int)
    (commit_message sha : Option String) (merge_method : String)
    (repo : Repo) (pr : PullReq)
    (hrepo : _get_repo_safe g repo_full_name = .ok repo)
    (hpr : repo.getPull pr_number = .ok pr)
    (hm : pr.mergeable = some false) :
    merge_pull_request g repo_full_name pr_number commit_message sha merge_method =
      { result := .ok (.errorPayload ("Pull request #" ++ toString pr_number ++ " is not mergeable."))
        mergeInvoked := false } := by
  simp [merge_pull_request, hrepo, hpr, hm, pyTruthyOptBool]

/-- Concrete instantiation of claim C4: pull request 2 of the sample
world has `mergeable = False`. -/
theorem claim_C4_witness :
    merge_pull_request (some sampleClient) "acme/widgets" 2 none none "merge" =
      { result := .ok (.errorPayload ("Pull request #" ++ toString (2 : Int) ++ " is not mergeable."))
        mergeInvoked := false } :=
  claim_C4_not_mergeable_short_circuit (some sampleClient) "acme/widgets" 2 none none "merge"
    sampleRepo prMergeableNo rfl rfl rfl

/-! ### Claim C9 -/

/-- Claim C9: `merge_pull_request` treats an unknown mergeability flag
the same as false: whenever the platform-reported flag is not `True`
(so `False` or the not-yet-computed `None`), the call returns the
"Pull request #n is not mergeable." error payload and the merge mutation
is never invoked.  Confirmed. -/
theorem claim_C9_unknown_mergeable_like_false
    (g : Option Client) (repo_full_name : String) (pr_number : Int)
    (commit_message sha : Option String) (merge_method : String)
    (repo : Repo) (pr : PullReq)
    (hrepo : _get_repo_safe g repo_full_name = .ok repo)
    (hpr : repo.getPull pr_number = .ok pr)
    (hm : pr.mergeable ≠ some true) :
    merge_pull_request g repo_full_name pr_number commit_message sha merge_method =
      { result := .ok (.errorPayload ("Pull request #" ++ toString pr_number ++ " is not mergeable."))
        mergeInvoked := false } := by
  have hfalse : pyTruthyOptBool pr.mergeable = false := by
    cases hmm : pr.mergeable with
    | none => rfl
    | some b =>
      cases b with
      | false => rfl
      | true => exact absurd hmm hm
  simp [merge_pull_request, hrepo, hpr, hfalse]

/-- Concrete instantiation of claim C9: pull request 3 of the sample
world has `mergeable = None`. -/
theorem claim_C9_witness :
    merge_pull_request (some sampleClient) "acme/widgets" 3 none none "merge" =
      { result := .ok (.errorPayload ("Pull request #" ++ toString (3 : Int) ++ " is not mergeable."))
        mergeInvoked := false } :=
  claim_C9_unknown_mergeable_like_false (some sampleClient) "acme/widgets" 3 none none "merge"
    sampleRepo prMergeableUnknown rfl rfl (by decide)

/-! ### Claim C7 -/

/-- Claim C7: for every path resolving to a single file,
`list_repository_contents` returns a one-element list holding that file
record (fields name, path, type, url), never a bare record; for a
directory it returns one record per entry of the listing.  Confirmed. -/
theorem claim_C7_contents_always_list
    (g : Option Client) (repo_full_name path : String) (ref : Option String)
    (repo : Repo) (hrepo : _get_repo_safe g repo_full_name = .ok repo) :
    (∀ f, repo.getContents path ref = .ok (.single f) →
       list_repository_contents g repo_full_name path ref = .ok (.success [shapeContent f])) ∧
    (∀ entries, repo.getContents path ref = .ok (.listing entries) →
       list_repository_contents g repo_full_name path ref
         = .ok (.success (entries.map shapeContent))) := by
  constructor
  · intro f hf
    simp [list_repository_contents, hrepo, hf, pyBind, catchPy]
  · intro entries hentries
    simp [list_repository_contents, hrepo, hentries, pyBind, catchPy]

/-- Concrete instantiation of claim C7: in the sample world the path
"README.md" is a single file. -/
theorem claim_C7_witness :
    list_repository_contents (some sampleClient) "acme/widgets" "README.md" none
      = .ok (.success [shapeContent fileReadme]) :=
  (claim_C7_contents_always_list (some sampleClient) "acme/widgets" "README.md" none
    sampleRepo rfl).1 fileReadme rfl

/-! ### Claim C8 -/

/-- Claim C8: for every path resolving to a directory,
`get_file_content_from_repo` returns the error payload whose message is
exactly "Path <path> is a directory, not a file." (the path quoted in
single quotes), and the directory listing is never shaped into a success
result.  Confirmed. -/
theorem claim_C8_directory_error
    (g : Option Client) (repo_full_name path : String) (ref : Option String)
    (repo : Repo) (entries : List ContentFile)
    (hrepo : _get_repo_safe g repo_full_name = .ok repo)
    (hdir : repo.getContents path ref = .ok (.listing entries)) :
    get_file_content_from_repo g repo_full_name path ref
      = .ok (.errorPayload ("Path \x27" ++ path ++ "\x27 is a directory, not a file.")) := by
  simp [get_file_content_from_repo, hrepo, hdir, pyBind, catchPy]

/-- Concrete instantiation of claim C8: in the sample world the empty
path is the repository root directory. -/
theorem claim_C8_witness :
    get_file_content_from_repo (some sampleClient) "acme/widgets" "" none
      = .ok (.errorPayload ("Path \x27" ++ "" ++ "\x27 is a directory, not a file.")) :=
  claim_C8_directory_error (some sampleClient) "acme/widgets" "" none
    sampleRepo [fileReadme, fileSrc] rfl rfl

/-! ### Claim C1 -/

/-- Claim C1 fails on the code: with the credential absent or invalid the
module-level handle `g` is `None`, and the four tools that use `g`
directly while catching only `GithubException` terminate with an uncaught
`AttributeError` instead of returning one of the two fixed shapes.  The
first two conjuncts evaluate `get_user_profile` and `create_gist` at such
a call; the third shows the resolver-based tools do degrade to the
documented error payload, confirming the escape is a slip in the four
direct-access handlers. -/
theorem claim_C1_uncaught_attribute_error :
    get_user_profile none "octocat" = .error (.attributeError noneGetUserMsg) ∧
    create_gist none true [("hello.py", "print(1)")] none
      = .error (.attributeError noneCreateGistMsg) ∧
    list_issues none "acme/widgets" "open" 5 none
      = .ok (.errorPayload tokenNotConfiguredMsg) :=
  ⟨rfl, rfl, rfl⟩

/-! ### Claim C5 -/

/-- Counterexample to claim C5 as stated: a call in which a `sha`
argument is present but empty (`sha = some ""`) invokes the create-file
mutation, not the update-file mutation, because the source tests `if
sha:` (Python truthiness), not presence. -/
theorem claim_C5_counterexample :
    (create_or_update_file (some sampleClient) "acme/widgets" "docs/new.md" "msg" "content"
        none (some "")).invoked = some FileMutation.createFile ∧
    FileMutation.createFile ≠ FileMutation.updateFile :=
  ⟨rfl, by decide⟩

/-- Claim C5 amended: truthiness of the `sha` argument is the sole
discriminator between update and create.  Whenever the repository
resolves, a call with a non-empty `sha` invokes the update-file mutation
with the caller-supplied `sha` forwarded verbatim, and a call with an
absent or empty `sha` invokes the create-file mutation; in both cases
the returned value is exactly the shaped remote response, so no local
pre-validation of the `sha` against the existing file is performed. -/
theorem claim_C5_amended_truthiness_discriminator
    (g : Option Client) (repo_full_name path message content : String)
    (branch sha : Option String) (repo : Repo)
    (hrepo : _get_repo_safe g repo_full_name = .ok repo) :
    (∀ s, sha = some s → s ≠ "" →
       create_or_update_file g repo_full_name path message content branch sha =
         { result := catchPy fileOpFmt
             (liftShape shapeFileOp (repo.updateFile path message content s branch))
           invoked := some .updateFile }) ∧
    (pyTruthyStr sha = false →
       create_or_update_file g repo_full_name path message content branch sha =
         { result := catchPy fileOpFmt
             (liftShape shapeFileOp (repo.createFile path message content branch))
           invoked := some .createFile }) := by
  constructor
  · rintro s rfl hs
    simp [create_or_update_file, hrepo, hs]
  · intro hf
    cases sha with
    | none => simp [create_or_update_file, hrepo]
    | some s =>
      have hs : s = "" := by
        by_contra hne
        simp [pyTruthyStr, hne] at hf
      subst hs
      simp [create_or_update_file, hrepo]

/-- Concrete instantiation of amended claim C5: a non-empty `sha`
invokes the update-file mutation. -/
theorem claim_C5_witness :
    create_or_update_file (some sampleClient) "acme/widgets" "docs/new.md" "m" "c"
        none (some "abc123") =
      { result := catchPy fileOpFmt
          (liftShape shapeFileOp (sampleRepo.updateFile "docs/new.md" "m" "c" "abc123" none))
        invoked := some .updateFile } :=
  (claim_C5_amended_truthiness_discriminator (some sampleClient) "acme/widgets" "docs/new.md"
    "m" "c" none (some "abc123") sampleRepo rfl).1 "abc123" rfl (by decide)

/-! ### Claim C10 -/

/-- Counterexample to claim C10 as stated: with `assignee_username`
given but empty (`some ""`), the source skips resolution entirely
(`if assignee_username:` is falsy), so even in a world where that user
cannot be resolved (the sample client fails lookups of the empty
username) the issue-creation mutation is invoked and a success record is
returned. -/
theorem claim_C10_counterexample :
    sampleClient.getUser "" = .error (.githubException "404 user not found") ∧
    (create_github_issue (some sampleClient) "acme/widgets" "Bug" "" (some "") none).createInvoked
      = true ∧
    (create_github_issue (some sampleClient) "acme/widgets" "Bug" "" (some "") none).result
      = .ok (.success { message := "Issue created successfully!", title := "Bug"
                        number := 7, url := "https://example.com/i/7" }) :=
  ⟨rfl, rfl, rfl⟩

/-- A client whose user lookups always fail with a platform exception. -/
def userlessClient : Client :=
  { getRepo := fun _ => .ok sampleRepo
    getUser := fun _ => .error (.githubException "404 user not found")
    getOrganization := fun _ => .ok sampleOrg
    createGist := fun pub fs d =>
      .ok { id := "g1", html_url := "https://example.com/gist/g1", description := d
            public := pub, files := fs.map (fun nc => (nc.1, nc.2.content)) } }

/-- Claim C10 amended: for every call in which a non-empty
`assignee_username` is given and that user cannot be resolved (the
lookup raises a platform exception), `create_github_issue` returns an
error payload and the issue-creation mutation is never invoked. -/
theorem claim_C10_amended_resolve_before_create
    (c : Client) (repo_full_name title body s : String)
    (labels : Option (List String)) (repo : Repo) (m : String)
    (hrepo : _get_repo_safe (some c) repo_full_name = .ok repo)
    (hs : s ≠ "")
    (hu : c.getUser s = .error (.githubException m)) :
    create_github_issue (some c) repo_full_name title body (some s) labels =
      { result := .ok (.errorPayload m), createInvoked := false } := by
  simp [create_github_issue, hrepo, pyTruthyStr, hs, hu, catchPy]

/-- Concrete instantiation of amended claim C10. -/
theorem claim_C10_witness :
    create_github_issue (some userlessClient) "acme/widgets" "Bug" "" (some "ghost") none =
      { result := .ok (.errorPayload "404 user not found"), createInvoked := false } :=
  claim_C10_amended_resolve_before_create userlessClient "acme/widgets" "Bug" "" "ghost"
    none sampleRepo "404 user not found" rfl (by decide) rfl

theorem catchGh_ok_success (fmt : String → String) (x : Except PyExn (Res α)) (l : α)
    (h : catchGh fmt x = .ok (.success l)) : x = .ok (.success l) := by
  unfold catchGh at h
  split at h <;> simp_all

theorem enumBreak_cast_length_le (limit : Int) (hl : 0 ≤ limit) (step : α → List β)
    (hstep : ∀ a, (step a).length ≤ 1) (xs : List α) :
    ((enumBreak limit step 0 xs).length : Int) ≤ limit := by
  rcases enumBreak_length_le limit step hstep 0 xs with h | h
  · omega
  · rw [h]
    simp only [List.length_nil, Nat.cast_zero]
    exact hl

/-! ### Claim C2 -/

/-- Counterexample to claim C2 as stated: the claim quantifies over
every supplied limit, but for a negative limit (here `-1`) the loop
breaks immediately and returns an empty list whose length, zero, exceeds
the supplied limit. -/
theorem claim_C2_counterexample :
    list_branches (some sampleClient) "acme/widgets" false (-1)
      = .ok (.success ([] : List BranchRec)) ∧
    ¬ ((([] : List BranchRec).length : Int) ≤ -1) :=
  ⟨rfl, by decide⟩

/-- Claim C2 amended: for every list-type tool taking a limit and every
nonnegative supplied limit, the number of records in a successful result
never exceeds that limit.  (`list_repository_contents` accepts no limit
parameter, so the quantification over supplied limits is empty for it.) -/
theorem claim_C2_amended_limit_cap (g : Option Client) (limit : Int) (hl : 0 ≤ limit) :
    (∀ n st au l, list_issues g n st limit au = .ok (.success l) → (l.length : Int) ≤ limit) ∧
    (∀ n po l, list_branches g n po limit = .ok (.success l) → (l.length : Int) ≤ limit) ∧
    (∀ n l, list_releases g n limit = .ok (.success l) → (l.length : Int) ≤ limit) ∧
    (∀ n l, list_workflows g n limit = .ok (.success l) → (l.length : Int) ≤ limit) ∧
    (∀ n l, list_labels g n limit = .ok (.success l) → (l.length : Int) ≤ limit) ∧
    (∀ n l, list_org_members g n limit = .ok (.success l) → (l.length : Int) ≤ limit) := by
  refine ⟨?_, ?_, ?_, ?_, ?_, ?_⟩
  · intro n st au l h
    have h1 := catchPy_ok_success _ _ _ h
    obtain ⟨repo, _, h2⟩ := pyBind_ok_inv _ _ _ h1
    obtain ⟨filters, _, h3⟩ := pyBind_ok_inv _ _ _ h2
    obtain ⟨issues, _, h4⟩ := pyBind_ok_inv _ _ _ h3
    injection h4 with h5
    injection h5 with h6
    rw [← h6]
    exact enumBreak_cast_length_le limit hl _ (fun a => by simp) issues
  · intro n po l h
    have h1 := catchPy_ok_success _ _ _ h
    obtain ⟨repo, _, h2⟩ := pyBind_ok_inv _ _ _ h1
    obtain ⟨branches, _, h3⟩ := pyBind_ok_inv _ _ _ h2
    injection h3 with h4
    injection h4 with h5
    rw [← h5]
    refine enumBreak_cast_length_le limit hl _ (fun a => ?_) branches
    cases hb : (!po || a.protectedFlag) <;> simp [hb]
  · intro n l h
    have h1 := catchPy_ok_success _ _ _ h
    obtain ⟨repo, _, h2⟩ := pyBind_ok_inv _ _ _ h1
    obtain ⟨releases, _, h3⟩ := pyBind_ok_inv _ _ _ h2
    injection h3 with h4
    injection h4 with h5
    rw [← h5]
    exact enumBreak_cast_length_le limit hl _ (fun a => by simp) releases
  · intro n l h
    have h1 := catchPy_ok_success _ _ _ h
    obtain ⟨repo, _, h2⟩ := pyBind_ok_inv _ _ _ h1
    obtain ⟨workflows, _, h3⟩ := pyBind_ok_inv _ _ _ h2
    injection h3 with h4
    injection h4 with h5
    rw [← h5]
    exact enumBreak_cast_length_le limit hl _ (fun a => by simp) workflows
  · intro n l h
    have h1 := catchPy_ok_success _ _ _ h
    obtain ⟨repo, _, h2⟩ := pyBind_ok_inv _ _ _ h1
    obtain ⟨labels, _, h3⟩ := pyBind_ok_inv _ _ _ h2
    injection h3 with h4
    injection h4 with h5
    rw [← h5]
    exact enumBreak_cast_length_le limit hl _ (fun a => by simp) labels
  · intro n l h
    have h1 := catchGh_ok_success _ _ _ h
    cases g with
    | none => exact absurd h1 (by simp)
    | some c =>
      obtain ⟨org, _, h2⟩ := pyBind_ok_inv _ _ _ h1
      obtain ⟨members, _, h3⟩ := pyBind_ok_inv _ _ _ h2
      injection h3 with h4
      injection h4 with h5
      rw [← h5]
      exact enumBreak_cast_length_le limit hl _ (fun a => by simp) members

/-- Concrete instantiation of amended claim C2: the sample branch
listing with limit 10 yields two records, and two does not exceed ten. -/
theorem claim_C2_witness :
    (([{ name := "dev", protectedFlag := false },
       { name := "main", protectedFlag := true }] : List BranchRec).length : Int) ≤ 10 :=
  (claim_C2_amended_limit_cap (some sampleClient) 10 (by decide)).2.1
    "acme/widgets" false _ rfl

/-! ### Claim C3 -/

/-- Counterexample to claim C3 as stated: in the sample world the branch
enumeration is [dev (unprotected), main (protected)].  With
`protected_only = true` and limit 1 there is exactly one matching
(protected) branch, which is at most the limit, yet the call returns the
empty list rather than min(limit, matching) = 1 records: the filter is
applied inside the first-limit window of the enumeration, so the
protected branch at index 1 is never examined. -/
theorem claim_C3_counterexample :
    list_branches (some sampleClient) "acme/widgets" true 1
      = .ok (.success ([] : List BranchRec)) ∧
    (sampleBranches.filter (fun b => b.protectedFlag)).length = 1 ∧
    ([] : List BranchRec).length
      ≠ min (Int.toNat 1) (sampleBranches.filter (fun b => b.protectedFlag)).length :=
  ⟨rfl, rfl, by decide⟩

theorem take_map_length_cast (limit : Int) (hl : 0 ≤ limit) (f : α → β) (xs : List α) :
    (((xs.take limit.toNat).map f).length : Int) = min limit (xs.length : Int) := by
  simp only [List.length_map, List.length_take]
  rw [Nat.cast_min, Int.toNat_of_nonneg hl]

/-- Claim C3 amended: for every nonnegative supplied limit, each
list-type tool whose filtering (if any) happens in the server-side
enumeration — `list_issues` (state filters), `list_releases`,
`list_workflows`, `list_labels`, `list_org_members` — returns on success
the first `limit` entries of the enumeration, hence exactly
min(limit, number of enumerated resources) records, and so does
`list_branches` with `protected_only = false`.  `list_branches` with
`protected_only = true` instead applies its filter locally inside the
first-limit window of the enumeration: it returns exactly the protected
branches among the first `limit` enumerated branches, which can be fewer
than min(limit, total protected branches). -/
theorem claim_C3_amended_min_counts
    (g : Option Client) (n : String) (limit : Int) (hl : 0 ≤ limit) (repo : Repo)
    (hrepo : _get_repo_safe g n = .ok repo) :
    (∀ st issues, repo.getIssues { state := st, assignee := none } = .ok issues →
       list_issues g n st limit none
         = .ok (.success ((issues.take limit.toNat).map shapeIssue)) ∧
       (((issues.take limit.toNat).map shapeIssue).length : Int)
         = min limit (issues.length : Int)) ∧
    (∀ releases, repo.getReleases = .ok releases →
       list_releases g n limit
         = .ok (.success ((releases.take limit.toNat).map shapeRelease)) ∧
       (((releases.take limit.toNat).map shapeRelease).length : Int)
         = min limit (releases.length : Int)) ∧
    (∀ workflows, repo.getWorkflows = .ok workflows →
       list_workflows g n limit
         = .ok (.success ((workflows.take limit.toNat).map shapeWorkflow)) ∧
       (((workflows.take limit.toNat).map shapeWorkflow).length : Int)
         = min limit (workflows.length : Int)) ∧
    (∀ labels, repo.getLabels = .ok labels →
       list_labels g n limit
         = .ok (.success ((labels.take limit.toNat).map shapeLabel)) ∧
       (((labels.take limit.toNat).map shapeLabel).length : Int)
         = min limit (labels.length : Int)) ∧
    (∀ c org_name org members, g = some c → c.getOrganization org_name = .ok org →
       org.getMembers = .ok members →
       list_org_members g org_name limit
         = .ok (.success ((members.take limit.toNat).map shapeMember)) ∧
       (((members.take limit.toNat).map shapeMember).length : Int)
         = min limit (members.length : Int)) ∧
    (∀ branches, repo.getBranches = .ok branches →
       list_branches g n true limit
         = .ok (.success (((branches.take limit.toNat).filter
             (fun b => b.protectedFlag)).map shapeBranch)) ∧
       list_branches g n false limit
         = .ok (.success ((branches.take limit.toNat).map shapeBranch)) ∧
       (((branches.take limit.toNat).map shapeBranch).length : Int)
         = min limit (branches.length : Int)) := by
  refine ⟨?_, ?_, ?_, ?_, ?_, ?_⟩
  · intro st issues hiss
    have he := enumBreak_singleton limit shapeIssue 0 issues
    simp only [Int.sub_zero] at he
    refine ⟨?_, take_map_length_cast limit hl shapeIssue issues⟩
    simp [list_issues, hrepo, pyTruthyStr, hiss, pyBind, catchPy, he]
  · intro releases hrel
    have he := enumBreak_singleton limit shapeRelease 0 releases
    simp only [Int.sub_zero] at he
    refine ⟨?_, take_map_length_cast limit hl shapeRelease releases⟩
    simp [list_releases, hrepo, hrel, pyBind, catchPy, he]
  · intro workflows hwf
    have he := enumBreak_singleton limit shapeWorkflow 0 workflows
    simp only [Int.sub_zero] at he
    refine ⟨?_, take_map_length_cast limit hl shapeWorkflow workflows⟩
    simp [list_workflows, hrepo, hwf, pyBind, catchPy, he]
  · intro labels hlab
    have he := enumBreak_singleton limit shapeLabel 0 labels
    simp only [Int.sub_zero] at he
    refine ⟨?_, take_map_length_cast limit hl shapeLabel labels⟩
    simp [list_labels, hrepo, hlab, pyBind, catchPy, he]
  · intro c org_name org members hg horg hmem
    subst hg
    have he := enumBreak_singleton limit shapeMember 0 members
    simp only [Int.sub_zero] at he
    refine ⟨?_, take_map_length_cast limit hl shapeMember members⟩
    simp [list_org_members, horg, hmem, pyBind, catchGh, he]
  · intro branches hb
    refine ⟨?_, ?_, take_map_length_cast limit hl shapeBranch branches⟩
    · have he := enumBreak_filter limit (fun b => b.protectedFlag) shapeBranch 0 branches
      simp only [Int.sub_zero] at he
      simp [list_branches, hrepo, hb, pyBind, catchPy, ← he]
    · have he := enumBreak_singleton limit shapeBranch 0 branches
      simp only [Int.sub_zero] at he
      simp [list_branches, hrepo, hb, pyBind, catchPy, ← he]

/-- Concrete instantiation of amended claim C3: with limit 1 and
`protected_only = true` the sample world yields the filtered window
(which is empty), while with limit 10 the release listing yields
min(10, 1) = 1 record. -/
theorem claim_C3_witness :
    list_branches (some sampleClient) "acme/widgets" true 1
      = .ok (.success (((sampleBranches.take (Int.toNat 1)).filter
          (fun b => b.protectedFlag)).map shapeBranch)) ∧
    ((([sampleRelease].take (Int.toNat 10)).map shapeRelease).length : Int)
      = min 10 (([sampleRelease].length : Nat) : Int) :=
  ⟨((claim_C3_amended_min_counts (some sampleClient) "acme/widgets" 1 (by decide)
      sampleRepo rfl).2.2.2.2.2 sampleBranches rfl).1,
   ((claim_C3_amended_min_counts (some sampleClient) "acme/widgets" 10 (by decide)
      sampleRepo rfl).2.1 [sampleRelease] rfl).2⟩

/-! ### Claim C6 -/

/-- Counterexample to claim C6 as stated: the claim quantifies over
every repository whose enumeration yields at least `limit` issues; for
`limit = -1` the sample enumeration (three issues) trivially does, yet
the call returns zero records, not exactly `limit`. -/
theorem claim_C6_counterexample :
    list_issues (some sampleClient) "acme/widgets" "open" (-1) none
      = .ok (.success ([] : List IssueRec)) ∧
    (-1 : Int) ≤ (sampleIssues.length : Int) ∧
    (([] : List IssueRec).length : Int) ≠ -1 :=
  ⟨rfl, by decide, by decide⟩

/-- Claim C6 amended: for every nonnegative limit and every repository
whose enumeration under the given state filter succeeds, `list_issues`
returns the first `limit` entries of the enumeration in its order, each
shaped into a record with exactly the fields title, number, url, state,
created_at and assignees (the `IssueRec` type); when the enumeration
yields at least `limit` issues the returned count is exactly `limit`.
When a non-empty `assignee_username` is given, the user is resolved
first and the resolved user is passed in the filters of the server-side
enumeration, with no local assignee filtering of the returned issues. -/
theorem claim_C6_amended_first_limit_shaped
    (c : Client) (n st : String) (limit : Int) (hl : 0 ≤ limit) (repo : Repo)
    (hrepo : _get_repo_safe (some c) n = .ok repo) :
    (∀ issues, repo.getIssues { state := st, assignee := none } = .ok issues →
       list_issues (some c) n st limit none
         = .ok (.success ((issues.take limit.toNat).map shapeIssue)) ∧
       (limit ≤ (issues.length : Int) →
         (((issues.take limit.toNat).map shapeIssue).length : Int) = limit)) ∧
    (∀ s u issues, s ≠ "" → c.getUser s = .ok u →
       repo.getIssues { state := st, assignee := some u } = .ok issues →
       list_issues (some c) n st limit (some s)
         = .ok (.success ((issues.take limit.toNat).map shapeIssue))) := by
  constructor
  · intro issues hiss
    constructor
    · have he := enumBreak_singleton limit shapeIssue 0 issues
      simp only [Int.sub_zero] at he
      simp [list_issues, hrepo, pyTruthyStr, hiss, pyBind, catchPy, he]
    · intro hge
      have h1 : limit.toNat ≤ issues.length := by omega
      simp only [List.length_map, List.length_take, min_eq_left h1]
      omega
  · intro s u issues hs hu hiss
    have he := enumBreak_singleton limit shapeIssue 0 issues
    simp only [Int.sub_zero] at he
    simp [list_issues, hrepo, pyTruthyStr, hs, hu, hiss, pyBind, catchPy, he]

/-- Concrete instantiation of amended claim C6: the sample repository
has three open issues and limit 2 returns their first two records. -/
theorem claim_C6_witness :
    list_issues (some sampleClient) "acme/widgets" "open" 2 none
      = .ok (.success ((sampleIssues.take (Int.toNat 2)).map shapeIssue)) :=
  ((claim_C6_amended_first_limit_shaped sampleClient "acme/widgets" "open" 2 (by decide)
    sampleRepo rfl).1 sampleIssues rfl).1
